import Mathlib

/-!
Verification development for the Aesthetic-Evaluator repository
(`backend/aesthetics_analyzer.py`, `backend/enhanced_remediation.py`,
`backend/llm_clients.py`).

The Python sources are shallowly embedded below.  Numeric scores (Python
floats used only for exact decimal arithmetic and comparisons) are modelled
as rationals.  Strings are Lean strings; Python `in`, `find`, `rfind`,
slicing, `strip`, `lower`, `split` are modelled by the `py*` helpers.
Helper methods whose bodies evaluate Python regular expressions
(`_fuzzy_match_code`, `_semantic_match_code`, `_find_related_elements`,
`_extract_keywords_from_issue`) are taken as parameters (uninterpreted
functions); theorems about their callers quantify over every possible
instantiation, and so in particular cover the concrete Python ones.
-/

namespace AestheticEvaluator

/-! ## Python string primitives -/

/-- The characters of a string. -/
def chars (s : String) : List Char := s.toList

/-- `pat` occurs as a contiguous run inside `l`. -/
def listIsInfix (pat : List Char) : List Char → Bool
  | [] => pat.isEmpty
  | c :: t => pat.isPrefixOf (c :: t) || listIsInfix pat t

/-- Python `pat in s` (substring containment; the empty pattern is contained
in everything, as in Python). -/
def pyContains (s pat : String) : Bool := listIsInfix (chars pat) (chars s)

/-- First index `≥ i` (in the suffix given) at which `pat` starts, as in
Python `str.find`. -/
def findPrefixIdx (pat : List Char) : List Char → Nat → Option Nat
  | [], i => if pat.isEmpty then some i else none
  | c :: t, i =>
    if pat.isPrefixOf (c :: t) then some i else findPrefixIdx pat t (i + 1)

/-- Python `s.find(pat, start)`; `none` stands for Python's `-1`. -/
def pyFind (s pat : String) (start : Nat) : Option Nat :=
  findPrefixIdx (chars pat) ((chars s).drop start) start

/-- Python `s.rfind(pat)`: the largest index at which `pat` occurs. -/
def pyRFind (s pat : String) : Option Nat :=
  ((List.range (s.length + 1)).filter
    (fun i => (chars pat).isPrefixOf ((chars s).drop i))).getLast?

/-- Python slice `s[a:b]` (for `a ≤ b`; out-of-range indices clamp). -/
def pySlice (s : String) (a b : Nat) : String :=
  String.mk (((chars s).drop a).take (b - a))

/-- Python `content.split('\n')`. -/
def splitLines (s : String) : List String := s.splitOn "\n"

/-- `lines[ln - 1]` for a 1-based Python line number, defaulting to `""`
out of range (all call sites guard the range first). -/
def lineGetD (lines : List String) (ln : Int) : String :=
  lines.getD (ln - 1).toNat ""

/-- 1-based in-range test `1 <= ln <= len(lines)` used throughout. -/
def lineInRange (n : Nat) (ln : Int) : Bool := decide (1 ≤ ln ∧ ln ≤ (n : Int))

/-! ## Data model: a finding/issue dictionary (`Finding` of the spec).
Fields mirror the keys read by the analyzer; `validation_score` and
`fix_confidence` are `Option` because the Python dict lacks those keys
until `_enhance_issue` stores them. -/

structure Issue where
  issue_id : String := ""
  principle_id : String := ""
  category : String := ""
  severity : String := "medium"
  description : String := ""
  code_snippet : String := ""
  line_numbers : List Int := []
  source : String := ""
  validation_score : Option ℚ := none
  fix_confidence : Option ℚ := none

/-- The `aesthetic_principles` taxonomy table of `AestheticsAnalyzer.__init__`
(keys with their severity and category fields). -/
def aesthetic_principles : List (String × String × String) :=
  [("COLOR_001", "high", "color"),
   ("COLOR_002", "high", "color"),
   ("COLOR_003", "critical", "color"),
   ("COLOR_004", "medium", "color"),
   ("SPACING_001", "high", "spacing"),
   ("SPACING_002", "high", "spacing"),
   ("SPACING_003", "medium", "spacing"),
   ("SPACING_004", "high", "spacing"),
   ("TYPOGRAPHY_001", "high", "typography"),
   ("TYPOGRAPHY_002", "critical", "typography"),
   ("TYPOGRAPHY_003", "medium", "typography"),
   ("TYPOGRAPHY_004", "medium", "typography"),
   ("HIERARCHY_001", "high", "hierarchy"),
   ("HIERARCHY_002", "high", "hierarchy"),
   ("HIERARCHY_003", "medium", "hierarchy"),
   ("CONSISTENCY_001", "high", "consistency"),
   ("CONSISTENCY_002", "high", "consistency"),
   ("CONSISTENCY_003", "high", "consistency"),
   ("MODERN_001", "medium", "modern_patterns"),
   ("MODERN_002", "low", "modern_patterns"),
   ("MODERN_003", "low", "modern_patterns"),
   ("MODERN_004", "medium", "modern_patterns"),
   ("BALANCE_001", "medium", "balance"),
   ("BALANCE_002", "medium", "balance"),
   ("CLUTTER_001", "high", "clutter"),
   ("CLUTTER_002", "medium", "clutter")]

/-- `principle_id in self.aesthetic_principles` (key membership). -/
def isKnownPrinciple (pid : String) : Bool :=
  aesthetic_principles.any (fun p => p.1 == pid)

/-- The domain keywords checked against the description in
`_calculate_validation_score`. -/
def domain_keywords : List String :=
  ["color", "spacing", "typography", "hierarchy", "design", "aesthetic"]

/-! ## `AestheticsAnalyzer._calculate_validation_score`
(aesthetics_analyzer.py lines 642-672), translated statement by statement. -/

def calculate_validation_score (issue : Issue) (original_code : String) : ℚ :=
  let lines := splitLines original_code
  let score : ℚ := 0
  let score :=
    if issue.line_numbers.isEmpty then score
    else score + 4/10 *
      ((issue.line_numbers.countP (fun ln => lineInRange lines.length ln) : ℚ) /
        (issue.line_numbers.length : ℚ))
  let score :=
    if issue.code_snippet ≠ "" ∧ ¬ issue.line_numbers.isEmpty then
      if issue.line_numbers.any (fun ln =>
          lineInRange lines.length ln &&
          pyContains (lineGetD lines ln) issue.code_snippet.trim) then
        score + 3/10
      else score
    else score
  let score :=
    if issue.principle_id ≠ "" ∧ isKnownPrinciple issue.principle_id then
      score + 2/10
    else score
  let score :=
    if issue.description.length > 20 ∧
        domain_keywords.any (fun k => pyContains issue.description.toLower k) then
      score + 1/10
    else score
  min score 1

/-! Spec-shaped components of the validation score ("0.4 times the fraction of
claimed line numbers that are in range, plus 0.3 if the claimed snippet
appears verbatim on at least one resolved line, plus 0.2 if the principle id
is a known taxonomy key, plus 0.1 if the description is longer than 20
characters and contains a domain keyword").  An empty claimed-line list
contributes fraction 0; an absent snippet never "appears". -/

/-- Fraction of the claimed line numbers that are in range (0 when no line
numbers are claimed). -/
def lineFraction (lns : List Int) (n : Nat) : ℚ :=
  if lns.isEmpty then 0
  else (lns.countP (fun ln => lineInRange n ln) : ℚ) / (lns.length : ℚ)

/-- 1 when the (trimmed) claimed snippet appears verbatim on at least one
in-range resolved line, else 0. -/
def snippetIndicator (issue : Issue) (original_code : String) : ℚ :=
  if issue.code_snippet ≠ "" ∧
      ∃ ln ∈ issue.line_numbers,
        lineInRange (splitLines original_code).length ln = true ∧
        pyContains (lineGetD (splitLines original_code) ln) issue.code_snippet.trim = true then 1
  else 0

/-- 1 when the principle id is a known taxonomy key, else 0. -/
def principleIndicator (issue : Issue) : ℚ :=
  if issue.principle_id ≠ "" ∧ isKnownPrinciple issue.principle_id then 1 else 0

/-- 1 when the description is longer than 20 characters and contains a
domain keyword, else 0. -/
def descriptionIndicator (issue : Issue) : ℚ :=
  if issue.description.length > 20 ∧
      domain_keywords.any (fun k => pyContains issue.description.toLower k) then 1
  else 0

/-! ## `AestheticsAnalyzer._validate_issue_existence`
(aesthetics_analyzer.py lines 118-154).  The helpers `_fuzzy_match_code` and
`_semantic_match_code` evaluate Python regular expressions and are taken as
the parameters `fuzzy` and `semantic`. -/

/-- The principles treated leniently when no line numbers could be resolved:
`any(critical in principle_id for critical in [...])` (substring test). -/
def lenient_principles : List String := ["COLOR_003", "TYPOGRAPHY_002", "SPACING_001"]

/-- Membership of the principle id in the lenient "always-plausible" set. -/
def lenientCheck (pid : String) : Bool :=
  lenient_principles.any (fun crit => pyContains pid crit)

/-- The snippet-search step: with no claimed line numbers but a nonempty
snippet, the first line that fuzzy-matches the snippet becomes the sole
resolved line (1-based). -/
def snippetSearch (fuzzy : String → String → Bool) (lines : List String)
    (snippet : String) : Option Nat :=
  (lines.findIdx? (fun line => fuzzy snippet line)).map (· + 1)

/-- The line numbers the validator ends up checking: the claimed ones, or the
result of the snippet search when none were claimed. -/
def resolvedLineNumbers (fuzzy : String → String → Bool) (issue : Issue)
    (original_code : String) : List Int :=
  let lines := splitLines original_code
  let snippet := issue.code_snippet.trim
  if issue.line_numbers.isEmpty ∧ snippet ≠ "" then
    match snippetSearch fuzzy lines snippet with
    | some i => [(i : Int)]
    | none => []
  else issue.line_numbers

/-- One resolved line checked against the three strategies, on the stripped
line content: exact substring, fuzzy match, semantic (taxonomy-pattern)
match. -/
def lineStrategyMatch (fuzzy : String → String → Bool)
    (semantic : Issue → String → Bool) (issue : Issue) (lines : List String)
    (ln : Int) : Bool :=
  lineInRange lines.length ln &&
    (let line_content := (lineGetD lines ln).trim
     pyContains line_content issue.code_snippet.trim ||
       fuzzy issue.code_snippet.trim line_content ||
       semantic issue line_content)

/-- `_validate_issue_existence`: counts matching resolved lines and accepts
when the count is positive; with no resolved lines at all it accepts exactly
the lenient principles. -/
def validate_issue_existence (fuzzy : String → String → Bool)
    (semantic : Issue → String → Bool) (issue : Issue)
    (original_code : String) : Bool :=
  let lines := splitLines original_code
  let line_numbers := resolvedLineNumbers fuzzy issue original_code
  if line_numbers.isEmpty then lenientCheck issue.principle_id
  else
    let matchCount := line_numbers.countP
      (fun ln => lineStrategyMatch fuzzy semantic issue lines ln)
    decide (matchCount > 0)

/-! ## `AestheticsAnalyzer._improve_line_accuracy`
(aesthetics_analyzer.py lines 257-304).  `_find_related_elements` (the
taxonomy-driven element search) and `_extract_keywords_from_issue` are the
parameters `related` and `kws`. -/

/-- Strategy 1: 1-based indices of lines containing the trimmed snippet
verbatim (`code_snippet in line`). -/
def exactMatchLines (lines : List String) (snippet : String) : List Int :=
  ((lines.enumFrom 1).filter (fun p => pyContains p.2 snippet)).map
    (fun p => (p.1 : Int))

/-- Strategy 2: 1-based indices of lines accepted by the fuzzy matcher. -/
def fuzzyMatchLines (fuzzy : String → String → Bool) (lines : List String)
    (snippet : String) : List Int :=
  ((lines.enumFrom 1).filter (fun p => fuzzy snippet p.2)).map
    (fun p => (p.1 : Int))

/-- Keyword test of strategy 4: some extracted keyword occurs in the
lowercased line. -/
def keywordHit (kws : List String) (line : String) : Bool :=
  kws.any (fun k => pyContains line.toLower k)

/-- Strategy 4, one claimed line number: out-of-range numbers are dropped; an
in-range number is replaced by the first line in the ±2 window containing a
keyword, and kept as-is when the window has none (the Python
`for...else` on the offset loop). -/
def repairOne (kws : List String) (lines : List String) (ln : Int) : Option Int :=
  if lineInRange lines.length ln then
    match ([-2, -1, 0, 1, 2] : List Int).find? (fun off =>
        lineInRange lines.length (ln + off) &&
          keywordHit kws (lineGetD lines (ln + off))) with
    | some off => some (ln + off)
    | none => some ln
  else none

/-- Strategy 4 over all originally claimed line numbers. -/
def neighborhoodLines (kws : List String) (lines : List String)
    (lns : List Int) : List Int :=
  lns.filterMap (fun ln => repairOne kws lines ln)

/-- `_improve_line_accuracy`: the ordered strategy cascade, each stage capped
at its first three matches, falling back to `[1]` when everything fails. -/
def improve_line_accuracy (fuzzy : String → String → Bool)
    (related : Issue → String → List Int) (kws : Issue → List String)
    (issue : Issue) (original_code : String) : List Int :=
  if issue.code_snippet.trim = "" then issue.line_numbers
  else if ¬ (exactMatchLines (splitLines original_code) issue.code_snippet.trim).isEmpty then
    (exactMatchLines (splitLines original_code) issue.code_snippet.trim).take 3
  else if ¬ (fuzzyMatchLines fuzzy (splitLines original_code) issue.code_snippet.trim).isEmpty then
    (fuzzyMatchLines fuzzy (splitLines original_code) issue.code_snippet.trim).take 3
  else if ¬ (related issue original_code).isEmpty then
    (related issue original_code).take 3
  else if ¬ (neighborhoodLines (kws issue) (splitLines original_code)
      issue.line_numbers).isEmpty then
    neighborhoodLines (kws issue) (splitLines original_code) issue.line_numbers
  else [1]

/-! ## `AestheticsAnalyzer._calculate_fix_confidence`
(aesthetics_analyzer.py lines 616-640) and the scoring tail of
`_enhance_issue` (lines 246-253). -/

/-- Severity adjustment: +0.2 for "critical", +0.1 for "high". -/
def severityBump (severity : String) : ℚ :=
  if severity = "critical" then 2/10
  else if severity = "high" then 1/10
  else 0

/-- Candidate snippet non-triviality: length > 10 and containing a `{` or a
`<` structural delimiter. -/
def snippetNontrivial (snippet : String) : Bool :=
  decide (snippet.length > 10) &&
    (pyContains snippet "\x7b" || pyContains snippet "<")

/-- `_calculate_fix_confidence`: base 0.7 multiplied by the issue's stored
`validation_score` (Python `.get` default 0.5 when the key is absent), plus
the severity, provenance and snippet adjustments, clamped to 1. -/
def calculate_fix_confidence (issue : Issue) : ℚ :=
  let base := 7/10 * issue.validation_score.getD (1/2)
  let base := base + severityBump issue.severity
  let base := base + (if issue.source = "static_analysis" then 1/10 else 0)
  let base := base + (if snippetNontrivial issue.code_snippet then 1/10 else 0)
  min 1 base

/-- The scoring tail of `_enhance_issue`: the fix confidence is stored
first, the validation score only afterwards — so `calculate_fix_confidence`
reads an issue that does not carry `validation_score` yet. -/
def enhance_scores (issue : Issue) (original_code : String) : Issue :=
  let e1 := { issue with fix_confidence := some (calculate_fix_confidence issue) }
  { e1 with validation_score := some (calculate_validation_score e1 original_code) }

/-- Definition following the spec's words, for comparison: "base 0.7, scaled
by the validation score of the originating finding, then additively
adjusted: +0.2 if severity is critical, +0.1 if high, +0.1 if the fix's
provenance is static, +0.1 if the candidate snippet is non-trivial; result
clamped to 1.0". -/
def spec_fix_confidence (validation_score : ℚ) (severity source snippet : String) : ℚ :=
  min 1 (7/10 * validation_score + severityBump severity +
    (if source = "static_analysis" then 1/10 else 0) +
    (if snippetNontrivial snippet then 1/10 else 0))

/-! ## The per-session remediation record store
(`session["remediations"]`, enhanced_remediation.py lines 817-827 /
888-891).  A Python dict keyed by issue id: an association list with unique
keys, assignment replacing in place. -/

/-- The record `apply_remediation` stores (keys `model`, `timestamp`,
`applied`, `quality_score`; `rolled_back`/`rollback_timestamp` are absent
until a rollback adds them, modelled by `false`/`none`). -/
structure RemRecord where
  model : String
  timestamp : String
  applied : Bool
  quality_score : ℚ
  rolled_back : Bool := false
  rollback_timestamp : Option String := none

/-- The session's remediation dictionary. -/
abbrev RemStore := List (String × RemRecord)

/-- Python dict assignment `d[k] = r`: replace the entry in place, or append
a new one. -/
def storePut (s : RemStore) (k : String) (r : RemRecord) : RemStore :=
  match s with
  | [] => [(k, r)]
  | (k0, r0) :: t => if k0 = k then (k0, r) :: t else (k0, r0) :: storePut t k r

/-- Python dict lookup `d.get(k)`. -/
def storeGet (s : RemStore) (k : String) : Option RemRecord :=
  match s with
  | [] => none
  | (k0, r0) :: t => if k0 = k then some r0 else storeGet t k

/-- The store mutation of `apply_remediation` (line 821):
`session["remediations"][issue_id] = {model, result, timestamp,
applied: True, quality_score}` — an outright assignment, replacing whatever
record the issue id had. -/
def apply_store_step (s : RemStore) (issue_id model timestamp : String)
    (quality_score : ℚ) : RemStore :=
  storePut s issue_id
    { model := model, timestamp := timestamp, applied := true,
      quality_score := quality_score }

/-- The store mutation of `rollback_remediation` (lines 890-891): mark the
existing record rolled back in place and stamp the rollback time; nothing is
removed. -/
def rollback_store_step (s : RemStore) (issue_id ts : String) : RemStore :=
  s.map (fun p =>
    if p.1 = issue_id then
      (p.1, { p.2 with rolled_back := true, rollback_timestamp := some ts })
    else p)

/-- Number of records a given issue id owns in the store. -/
def storeCountKey (s : RemStore) (k : String) : Nat :=
  s.countP (fun p => p.1 == k)

/-! ## Step 5 of `get_enhanced_remediation`
(enhanced_remediation.py lines 219-264) and `apply_remediation`
(lines 777-846).

Step 5 runs inside one `try` block: the fixed content is built, the
validation result (carrying `quality_score`) is merged, and only then
`create_backup` is called.  `create_backup` lives in `code_processor.py`
(repository code outside the provided sources); per the spec (§4.6, §7
`ApplyError`) snapshotting can fail, so it is modelled by an
`Option String` input — `none` meaning the call raised.  When it raises,
the `except` handler (line 253) merely records `validation_error`; the
result keeps `success = True` and the already-merged quality score, and has
no `backup_path`. -/

structure Step5Out where
  success : Bool
  quality_score : ℚ
  fixed_code : Option String
  backup_path : Option String
  validation_error : Option String

/-- Step 5 of `get_enhanced_remediation`, given the gateway outcome, the
merged validation quality score, the assembled fixed content, and the
outcome of `create_backup`. -/
def step5 (llm_success has_changes : Bool) (q : ℚ) (fixed_content : String)
    (backup : Option String) : Step5Out :=
  if llm_success && has_changes then
    match backup with
    | some p =>
      { success := true, quality_score := q, fixed_code := some fixed_content,
        backup_path := some p, validation_error := none }
    | none =>
      { success := true, quality_score := q, fixed_code := some fixed_content,
        backup_path := none, validation_error := some "backup creation raised" }
  else
    { success := false, quality_score := 0, fixed_code := none,
      backup_path := none, validation_error := none }

/-- Projection of the dictionaries `apply_remediation` returns.  The
not-successful branch passes the remediation result through; the
below-threshold branch returns the score, the retry suggestion and the full
result as `remediation_preview`; the apply branch writes `fixed_code` to the
file (a failing write is the `file_writing` stage). -/
structure ApplyOut where
  success : Bool
  wrote_file : Bool
  written_content : Option String
  result_quality : Option ℚ
  suggestion : Option String
  preview : Option Step5Out
  stage : Option String

/-- The literal suggestion string of the below-threshold branch. -/
def suggestion_text : String := "Review the proposed changes or try a different model"

/-- `apply_remediation` downstream of `get_enhanced_remediation` (lines
792-846).  Note that the apply branch never consults `backup_path`. -/
def apply_remediation_model (r : Step5Out) (force_apply write_ok : Bool) : ApplyOut :=
  if r.success = false then
    { success := false, wrote_file := false, written_content := none,
      result_quality := some r.quality_score, suggestion := none,
      preview := none, stage := none }
  else if r.quality_score < 7/10 ∧ force_apply = false then
    { success := false, wrote_file := false, written_content := none,
      result_quality := some r.quality_score, suggestion := some suggestion_text,
      preview := some r, stage := none }
  else
    match r.fixed_code with
    | some fc =>
      if write_ok then
        { success := true, wrote_file := true, written_content := some fc,
          result_quality := some r.quality_score, suggestion := none,
          preview := none, stage := none }
      else
        { success := false, wrote_file := false, written_content := none,
          result_quality := none, suggestion := none, preview := none,
          stage := some "file_writing" }
    | none =>
      { success := false, wrote_file := false, written_content := none,
        result_quality := none, suggestion := none, preview := none,
        stage := some "file_writing" }

/-! ## `EnhancedRemediationService._check_issue_resolution`
(enhanced_remediation.py lines 506-603).

In the source, the block that checks the selected resolution patterns
against the two contents — and its `return` — is indented inside the final
`else` branch (lines 568-585), where `patterns` has just been set to `[]`:
there the loop body never runs and `len(improvements_found) /
len(patterns)` divides by zero (raising `ZeroDivisionError`, modelled as
`Except.error ()`).  For a known principle id or category the function falls
through to the "general improvements" fallback (lines 587-603), so the
selected patterns are never evaluated; no regular expression is ever run on
a reachable path. -/

structure ResolutionCheck where
  likely_resolved : Bool
  improvements_found : List String
  resolution_description : String
  confidence : ℚ

/-- The keys of the `resolution_patterns` table, with their (never-consulted)
regular-expression sources. -/
def resolution_patterns_table : List (String × List String) :=
  [("COLOR_001", ["#[0-9a-fA-F]\x7b3,6\x7d", "rgb\\s*\\(", "rgba\\s*\\("]),
   ("COLOR_002", ["var\\(--[a-z-]+-color", "--[a-z-]+-color"]),
   ("SPACING_001", ["\\d+px"]),
   ("SPACING_002", ["margin\\s*:", "padding\\s*:", "gap\\s*:"]),
   ("TYPOGRAPHY_001", ["font-size\\s*:", "font-weight\\s*:"]),
   ("TYPOGRAPHY_002", ["font-size\\s*:\\s*1[2-9]px|font-size\\s*:\\s*[2-9]\\d+px"]),
   ("HIERARCHY_001", ["font-size\\s*:", "font-weight\\s*:"]),
   ("MODERN_001", ["box-shadow", "border-radius"])]

/-- The categories with category-level patterns. -/
def resolution_categories : List String :=
  ["color", "spacing", "typography", "hierarchy", "modern_patterns"]

/-- The hardcoded fallback improvement markers (lines 588-591). -/
def general_improvements : List String :=
  ["// FIXED", "// AESTHETIC FIX", "border-radius", "box-shadow",
   "var(--", "font-size", "margin", "padding", "color:"]

/-- The reachable fallback (lines 593-603): markers newly present in the
lowercased fixed content and absent from the original; confidence 0.5 when
any was found, else 0.1. -/
def generalImprovementCheck (original_content fixed_content : String) : ResolutionCheck :=
  let found := general_improvements.filter (fun imp =>
    pyContains fixed_content.toLower imp.toLower &&
      ! pyContains original_content.toLower imp.toLower)
  { likely_resolved := ! found.isEmpty, improvements_found := found,
    resolution_description := "General aesthetic improvements detected",
    confidence := if ! found.isEmpty then 1/2 else 1/10 }

/-- `_check_issue_resolution` as the source behaves: fall-through to the
general fallback for known principles/categories, `ZeroDivisionError` for
unknown ones. -/
def check_issue_resolution (original_content fixed_content principle_id category : String) :
    Except Unit ResolutionCheck :=
  if resolution_patterns_table.any (fun p => p.1 == principle_id) then
    Except.ok (generalImprovementCheck original_content fixed_content)
  else if resolution_categories.contains category then
    Except.ok (generalImprovementCheck original_content fixed_content)
  else
    Except.error ()

/-- Definition following the spec's words, for comparison: "issue-resolution
confidence: fraction of taxonomy resolution-patterns newly present in the
fixed content that were absent in the original".  `newly` reports, for each
pattern source, whether it matches the fixed content and not the
original. -/
def spec_resolution_confidence (patterns : List String) (newly : String → Bool) : ℚ :=
  if patterns.isEmpty then 0
  else (patterns.countP newly : ℚ) / (patterns.length : ℚ)

/-- The `COLOR_001` resolution patterns. -/
def color001_patterns : List String :=
  ["#[0-9a-fA-F]\x7b3,6\x7d", "rgb\\s*\\(", "rgba\\s*\\("]

/-- Concrete evaluation of "newly present in `"color: #ffffff;"`, absent in
`""`" for the three `COLOR_001` patterns: only the hex-color pattern
matches. -/
def hexNewlyOracle : String → Bool :=
  fun p => p == "#[0-9a-fA-F]\x7b3,6\x7d"

/-! ## `_is_similar_issue`, `_recheck_aesthetics` and
`_calculate_remediation_quality` (enhanced_remediation.py lines 605-691). -/

/-- `_is_similar_issue`: same principle id, or overlapping line-number
sets. -/
def is_similar_issue (new_issue orig : Issue) : Bool :=
  new_issue.principle_id == orig.principle_id ||
    new_issue.line_numbers.any (fun ln => orig.line_numbers.contains ln)

/-- The static findings on the fixed content that look like the original
issue. -/
def similarIssues (static_issues : List Issue) (orig : Issue) : List Issue :=
  static_issues.filter (fun n => is_similar_issue n orig)

/-- The `improvement_score` of `_recheck_aesthetics` (line 638): 1.0 when no
similar finding remains, else 0.3. -/
def recheck_improvement_score (static_issues : List Issue) (orig : Issue) : ℚ :=
  if (similarIssues static_issues orig).isEmpty then 1 else 3/10

/-- `_calculate_remediation_quality`: 0.3 for valid candidate code, plus 0.4
times the resolution confidence, plus 0.3 times the recheck improvement
score, clamped to 1. -/
def calculate_remediation_quality (code_valid : Bool) (resolution_confidence improvement_score : ℚ) : ℚ :=
  min 1 ((if code_valid then 3/10 else 0) +
    4/10 * resolution_confidence + 3/10 * improvement_score)

/-! ## `LLMClient._parse_json_response` (llm_clients.py lines 903-981).

JSON values are the inductive `JVal`; the Python-stdlib `json.loads` is the
parameter `loads`, returning `none` when it would raise
`json.JSONDecodeError`.  Since the extracted candidate starts with `{`, a
successful real `loads` yields a dict, but the model handles a non-dict
result too: Python would then raise `AttributeError` at `parsed.get`,
caught by the outer handler (line 969). -/

inductive JVal where
  | jnull : JVal
  | jbool : Bool → JVal
  | jnum : Int → JVal
  | jstr : String → JVal
  | jarr : List JVal → JVal
  | jobj : List (String × JVal) → JVal

/-- Dict lookup on a parsed object. -/
def jGet (kvs : List (String × JVal)) (k : String) : Option JVal :=
  match kvs with
  | [] => none
  | (k0, v0) :: t => if k0 = k then some v0 else jGet t k

/-- Dict assignment on a parsed object (replace in place or append). -/
def jSet (kvs : List (String × JVal)) (k : String) (v : JVal) :
    List (String × JVal) :=
  match kvs with
  | [] => [(k, v)]
  | (k0, v0) :: t => if k0 = k then (k0, v) :: t else (k0, v0) :: jSet t k v

/-- Python `isinstance(v, list)`. -/
def jIsList : JVal → Bool
  | .jarr _ => true
  | _ => false

/-- Python `isinstance(v, int)` — which is also true of booleans. -/
def jIsInt : JVal → Bool
  | .jnum _ => true
  | .jbool _ => true
  | _ => false

/-- `len(parsed.get("issues", []))`. -/
def jIssuesLen (kvs : List (String × JVal)) : Int :=
  match jGet kvs "issues" with
  | some (.jarr l) => (l.length : Int)
  | _ => 0

/-- The field normalisation of the success path (lines 933-937): force
`issues` to a list and `total_issues` to an int. -/
def normalizeParsed (kvs : List (String × JVal)) : List (String × JVal) :=
  let kvs :=
    match jGet kvs "issues" with
    | some v => if jIsList v then kvs else jSet kvs "issues" (.jarr [])
    | none => jSet kvs "issues" (.jarr [])
  match jGet kvs "total_issues" with
  | some v => if jIsInt v then kvs else jSet kvs "total_issues" (.jnum (jIssuesLen kvs))
  | none => jSet kvs "total_issues" (.jnum (jIssuesLen kvs))

/-- The markdown fence markers. -/
def mdFence : String := "```"

/-- The json-tagged markdown fence marker. -/
def mdJsonFence : String := "```json"

/-- Lines 909-919: strip a leading markdown code fence, keeping the content
untouched when no closing fence follows. -/
def stripMarkdown (content : String) : String :=
  if pyContains content mdJsonFence then
    match pyFind content mdJsonFence 0 with
    | some s0 =>
      match pyFind content mdFence (s0 + 7) with
      | some e => (pySlice content (s0 + 7) e).trim
      | none => content
    | none => content
  else if pyContains content mdFence then
    match pyFind content mdFence 0 with
    | some s0 =>
      match pyFind content mdFence (s0 + 3) with
      | some e => (pySlice content (s0 + 3) e).trim
      | none => content
    | none => content
  else content

/-- Lines 921-926 — and likewise the greedy `re.search` of line 946, whose
DOTALL match runs from the first `{` to the last `}`: the candidate JSON
substring `content[content.find(LBRACE) : content.rfind(RBRACE) + 1]`,
present when the last `}` comes after the first `{`. -/
def braceCandidate (content : String) : Option String :=
  match pyFind content "\x7b" 0, pyRFind content "\x7d" with
  | some js, some je => if js < je then some (pySlice content js (je + 1)) else none
  | _, _ => none

/-- `raw_response` preservation: the content, truncated to 500 characters
with an ellipsis when longer (line 961). -/
def truncate500 (s : String) : String :=
  if s.length > 500 then pySlice s 0 500 ++ "..." else s

/-- The error text of the no-valid-JSON fallback (line 960). -/
def parse_error_text : String :=
  "Failed to parse LLM response as JSON: Content does not contain valid JSON"

/-- The error text of the outer exception handler (line 974), reached when
`loads` yields a non-dict and `parsed.get` raises `AttributeError`. -/
def exception_error_text : String :=
  "Failed to parse LLM response: exception"

/-- The default `file_info` of the fallback results. -/
def file_info_default : JVal :=
  .jobj [("filename", .jstr "unknown"), ("total_lines", .jnum 0),
    ("file_type", .jstr "unknown")]

/-- The zero-issue fallback result (lines 957-967 / 971-981). -/
def parse_fallback (errText content : String) : JVal :=
  .jobj [("total_issues", .jnum 0), ("issues", .jarr []),
    ("error", .jstr errText),
    ("raw_response", .jstr (truncate500 content)),
    ("file_info", file_info_default)]

/-- `_parse_json_response`. -/
def parse_json_response (loads : String → Option JVal) (rawContent : String) : JVal :=
  let content := stripMarkdown rawContent
  match braceCandidate content with
  | some cand =>
    match loads cand with
    | some (.jobj kvs) => .jobj (normalizeParsed kvs)
    | some _ => parse_fallback exception_error_text content
    | none =>
      match braceCandidate content with
      | some m =>
        match loads m with
        | some v => v
        | none => parse_fallback parse_error_text content
      | none => parse_fallback parse_error_text content
  | none =>
    match braceCandidate content with
    | some m =>
      match loads m with
      | some v => v
      | none => parse_fallback parse_error_text content
    | none => parse_fallback parse_error_text content

/-- Field access on a parse result. -/
def jField (v : JVal) (k : String) : Option JVal :=
  match v with
  | .jobj kvs => jGet kvs k
  | _ => none

/-! ## Concrete instantiations used in the theorems below -/

/-- A fuzzy matcher that never matches (one admissible instantiation of the
`_fuzzy_match_code` parameter; the theorems that use it either quantify over
the parameter or never reach the fuzzy stage). -/
def noFuzzy : String → String → Bool := fun _ _ => false

/-- A semantic matcher that never matches. -/
def noSemantic : Issue → String → Bool := fun _ _ => false

/-- An element search that finds nothing. -/
def noRelated : Issue → String → List Int := fun _ _ => []

/-- A keyword extractor that extracts nothing. -/
def noKeywords : Issue → List String := fun _ => []

/-- A raw model finding: known principle, in-range line, snippet present on
the line, keyword-bearing description — and, as for every raw finding, no
`validation_score` key yet. -/
def issue6 : Issue :=
  { principle_id := "COLOR_001", category := "color", severity := "medium",
    description := "inconsistent color usage detected",
    code_snippet := "color: red", line_numbers := [1] }

/-- The one-line source file `issue6` points into. -/
def code6 : String := "color: red;"

/-- Scenario A of the spec: claimed snippet `margin: 10px`, no claimed line
numbers. -/
def issueA : Issue := { code_snippet := "margin: 10px", line_numbers := [] }

/-- Scenario A source: a single line containing the snippet. -/
def codeA : String := "margin: 10px;"

/-- `issueA` with its resolved line, as checked by the validator. -/
def issueAat1 : Issue := { code_snippet := "margin: 10px", line_numbers := [1] }

/-- A finding whose snippet occurs on more than three lines. -/
def issue8 : Issue := { code_snippet := "p;", line_numbers := [] }

/-- A four-line file, every line containing the snippet of `issue8`. -/
def code8 : String := "p;\np;\np;\np;"

/-- A finding whose snippet occurs nowhere and which claims no lines. -/
def issue10 : Issue := { code_snippet := "zz", line_numbers := [] }

/-- A file unrelated to `issue10`. -/
def code10 : String := "alpha"

/-- Scenario C, first finding: line 3, spacing principle. -/
def issueC1 : Issue := { principle_id := "SPACING_001", line_numbers := [3] }

/-- Scenario C, second finding: line 3 again, different principle — similar
to `issueC1` by line overlap alone. -/
def issueC2 : Issue := { principle_id := "COLOR_001", line_numbers := [3] }

/-! ## Theorems -/

/-- C2: the real source file is overwritten by an Apply without any
successful snapshot.  When `create_backup` raises inside step 5 of
`get_enhanced_remediation`, the handler at enhanced_remediation.py:253 only
records `validation_error`; the result keeps `success = True` and its
already-computed quality score, carries no `backup_path`, and
`apply_remediation` — which never consults `backup_path` — writes the
candidate content to the file.  Evaluated here at quality 0.8 with no force
flag: the file is written although no snapshot succeeded, refuting the
fail-closed claim. -/
theorem claim_C2_code_divergence :
    (step5 true true (4/5) "fixed body" none).success = true ∧
    (step5 true true (4/5) "fixed body" none).backup_path = none ∧
    (step5 true true (4/5) "fixed body" none).validation_error =
      some "backup creation raised" ∧
    (apply_remediation_model (step5 true true (4/5) "fixed body" none) false true).wrote_file
      = true ∧
    (apply_remediation_model (step5 true true (4/5) "fixed body" none) false true).written_content
      = some "fixed body" := by
  refine ⟨rfl, rfl, rfl, ?_, ?_⟩ <;> with_unfolding_all rfl

/-- C6: the fix confidence is not scaled by the validation score of the
finding.  `_enhance_issue` stores `fix_confidence` (line 250) before it
stores `validation_score` (line 253), so `_calculate_fix_confidence` always
reads the `.get` default 0.5 on a raw finding.  On `issue6`, whose computed
validation score is 1, the stored fix confidence is 0.7·0.5 = 0.35, while
the claimed formula gives 0.7·1 = 0.7. -/
theorem claim_C6_code_divergence :
    (enhance_scores issue6 code6).validation_score = some 1 ∧
    (enhance_scores issue6 code6).fix_confidence = some (7/20) ∧
    spec_fix_confidence 1 issue6.severity issue6.source issue6.code_snippet = 7/10 ∧
    (7/20 : ℚ) < 7/10 := by
  refine ⟨?_, ?_, ?_, ?_⟩
  · with_unfolding_all rfl
  · with_unfolding_all rfl
  · with_unfolding_all rfl
  · norm_num

/-- C4: the issue-resolution confidence is not the fraction of taxonomy
resolution-patterns newly present.  The pattern check of
`_check_issue_resolution` sits inside the unknown-principle `else` branch
(enhanced_remediation.py lines 568-585): a known principle such as
`COLOR_001` falls through to the hardcoded general-improvements fallback
(confidence 0.5 here, because `color:` is newly present), while the spec's
fraction over the three `COLOR_001` patterns is 1/3 (only the hex pattern
newly matches `"color: #ffffff;"`); the resulting quality scores differ
(0.8 versus 11/15).  For an unknown principle and category the code divides
by `len(patterns) = 0` and raises `ZeroDivisionError`.  The recheck
improvement score (1.0 with no similar finding, 0.3 otherwise, similarity
by principle id or line overlap) behaves as claimed. -/
theorem claim_C4_code_divergence :
    check_issue_resolution "" "color: #ffffff;" "COLOR_001" "color" =
      Except.ok { likely_resolved := true, improvements_found := ["color:"],
                  resolution_description := "General aesthetic improvements detected",
                  confidence := 1/2 } ∧
    spec_resolution_confidence color001_patterns hexNewlyOracle = 1/3 ∧
    decide ((1 : ℚ)/2 = 1/3) = false ∧
    check_issue_resolution "" "improved" "LAYOUT_009" "layout" = Except.error () ∧
    calculate_remediation_quality true (1/2) 1 = 8/10 ∧
    calculate_remediation_quality true
      (spec_resolution_confidence color001_patterns hexNewlyOracle) 1 = 11/15 ∧
    decide ((8 : ℚ)/10 = 11/15) = false ∧
    recheck_improvement_score [] issueC1 = 1 ∧
    recheck_improvement_score [issueC2] issueC1 = 3/10 := by
  refine ⟨?_, ?_, ?_, ?_, ?_, ?_, ?_, ?_, ?_⟩ <;> with_unfolding_all rfl

/-- C1 counterexample: the per-issue remediation history is not append-only
and the tombstoned record does not survive.  After Apply, Rollback, Apply on
the same issue id, the store holds a single record and no record marked
rolled back — the assignment at enhanced_remediation.py:821 replaced the
tombstoned record (which `storeGet` shows was present after the
rollback). -/
theorem claim_C1_counterexample :
    (storeGet (rollback_store_step
        (apply_store_step [] "issue-1" "gpt-4o" "t1" (9/10)) "issue-1" "t2")
      "issue-1").map (fun r => r.rolled_back) = some true ∧
    (apply_store_step (rollback_store_step
        (apply_store_step [] "issue-1" "gpt-4o" "t1" (9/10)) "issue-1" "t2")
      "issue-1" "llama-maverick" "t3" (4/5)).length = 1 ∧
    (apply_store_step (rollback_store_step
        (apply_store_step [] "issue-1" "gpt-4o" "t1" (9/10)) "issue-1" "t2")
      "issue-1" "llama-maverick" "t3" (4/5)).countP
        (fun p => p.2.rolled_back) = 0 := by
  refine ⟨?_, ?_, ?_⟩ <;> with_unfolding_all rfl

/-- C8 counterexample: with the snippet `p;` present verbatim on four lines
and no claimed line numbers, the Locator returns only the first three
matching lines, not exactly the lines containing the snippet. -/
theorem claim_C8_counterexample :
    improve_line_accuracy noFuzzy noRelated noKeywords issue8 code8 = [1, 2, 3] ∧
    exactMatchLines (splitLines code8) issue8.code_snippet.trim = [1, 2, 3, 4] ∧
    decide (([1, 2, 3] : List Int) = [1, 2, 3, 4]) = false := by
  refine ⟨?_, ?_, ?_⟩ <;> with_unfolding_all rfl

/-- Dict assignment stores the assigned record under the key. -/
theorem storeGet_put_self (s : RemStore) (k : String) (r : RemRecord) :
    storeGet (storePut s k r) k = some r := by
  induction s with
  | nil => simp [storePut, storeGet]
  | cons p t ih =>
    rcases p with ⟨k0, r0⟩
    by_cases h : k0 = k
    · simp [storePut, storeGet, h]
    · simp [storePut, storeGet, h, ih]

/-- The rollback mutation tombstones the record under the issue id in place;
it never removes it. -/
theorem storeGet_rollback_self (s : RemStore) (i ts : String) :
    storeGet (rollback_store_step s i ts) i =
      (storeGet s i).map
        (fun r => { r with rolled_back := true, rollback_timestamp := some ts }) := by
  induction s with
  | nil => simp [rollback_store_step, storeGet]
  | cons p t ih =>
    rcases p with ⟨k0, r0⟩
    simp only [rollback_store_step, List.map_cons] at ih ⊢
    by_cases h : k0 = i
    · subst h
      rw [if_pos rfl]
      simp [storeGet]
    · rw [if_neg h]
      simp only [storeGet, if_neg h]
      exact ih

/-- Rollback does not change the key sequence of the store. -/
theorem rollback_keys (s : RemStore) (i ts : String) :
    (rollback_store_step s i ts).map Prod.fst = s.map Prod.fst := by
  induction s with
  | nil => rfl
  | cons p t ih =>
    rcases p with ⟨k0, r0⟩
    simp only [rollback_store_step, List.map_cons] at ih ⊢
    by_cases h : k0 = i
    · subst h
      simp [ih]
    · simp [h, ih]

/-- Keys after an assignment: every key was already there or is the assigned
one. -/
theorem mem_keys_put (t : RemStore) (k a : String) (r : RemRecord)
    (hm : a ∈ (storePut t k r).map Prod.fst) : a ∈ t.map Prod.fst ∨ a = k := by
  induction t with
  | nil =>
    right
    simpa [storePut] using hm
  | cons p l ih =>
    rcases p with ⟨k0, r0⟩
    by_cases h : k0 = k
    · subst h
      simp [storePut] at hm ⊢
      tauto
    · simp only [storePut, if_neg h, List.map_cons, List.mem_cons] at hm
      rcases hm with h1 | h2
      · left; simp [h1]
      · rcases ih h2 with h3 | h3
        · left; simp [h3]
        · right; exact h3

/-- Assignment preserves distinctness of the keys. -/
theorem nodup_keys_put (s : RemStore) (k : String) (r : RemRecord)
    (hnd : (s.map Prod.fst).Nodup) : ((storePut s k r).map Prod.fst).Nodup := by
  induction s with
  | nil => simp [storePut]
  | cons p t ih =>
    rcases p with ⟨k0, r0⟩
    simp only [List.map_cons, List.nodup_cons] at hnd
    by_cases h : k0 = k
    · subst h
      simpa [storePut, List.nodup_cons] using hnd
    · simp only [storePut, if_neg h, List.map_cons, List.nodup_cons]
      refine ⟨?_, ih hnd.2⟩
      intro hmem
      rcases mem_keys_put t k k0 r hmem with h3 | h3
      · exact hnd.1 h3
      · exact h h3

/-- With distinct keys, an assignment leaves exactly one record under the
assigned key. -/
theorem countKey_put (s : RemStore) (k : String) (r : RemRecord)
    (hnd : (s.map Prod.fst).Nodup) : storeCountKey (storePut s k r) k = 1 := by
  induction s with
  | nil => simp [storePut, storeCountKey]
  | cons p t ih =>
    rcases p with ⟨k0, r0⟩
    simp only [List.map_cons, List.nodup_cons] at hnd
    by_cases h : k0 = k
    · subst h
      simp [storePut, storeCountKey, List.countP_cons, List.countP_eq_zero]
      intro a b hab hak
      refine hnd.1 ?_
      exact hak ▸ List.mem_map_of_mem Prod.fst hab
    · have hb : ((k0, r0).1 == k) = false := by simpa using h
      simp [storePut, storeCountKey, List.countP_cons, h, hb]
      simpa [storeCountKey] using ih hnd.2

/-- C1 amended: the remediation store keeps exactly one record per issue
id.  Rollback tombstones the applied record in place (never deleting it),
and a subsequent Apply for the same issue id stores a fresh, independent
record that replaces — rather than joins — the tombstoned one. -/
theorem claim_C1_amended (s : RemStore) (i m1 t1 m2 t2 t3 : String) (q1 q2 : ℚ)
    (hnd : (s.map Prod.fst).Nodup) :
    storeGet (rollback_store_step (apply_store_step s i m1 t1 q1) i t3) i =
      some { model := m1, timestamp := t1, applied := true, quality_score := q1,
             rolled_back := true, rollback_timestamp := some t3 } ∧
    storeGet (apply_store_step
        (rollback_store_step (apply_store_step s i m1 t1 q1) i t3) i m2 t2 q2) i =
      some { model := m2, timestamp := t2, applied := true, quality_score := q2 } ∧
    storeCountKey (apply_store_step
        (rollback_store_step (apply_store_step s i m1 t1 q1) i t3) i m2 t2 q2) i = 1 := by
  refine ⟨?_, ?_, ?_⟩
  · unfold apply_store_step
    rw [storeGet_rollback_self, storeGet_put_self]
    rfl
  · unfold apply_store_step
    rw [storeGet_put_self]
  · unfold apply_store_step
    apply countKey_put
    rw [rollback_keys]
    exact nodup_keys_put s i _ hnd

/-- C1 amended, witnessed on the empty store with concrete ids, models,
timestamps and scores. -/
theorem claim_C1_amended_witness :
    storeGet (rollback_store_step (apply_store_step [] "issue-1" "gpt-4o" "t1" 1)
        "issue-1" "t3") "issue-1" =
      some { model := "gpt-4o", timestamp := "t1", applied := true, quality_score := 1,
             rolled_back := true, rollback_timestamp := some "t3" } ∧
    storeGet (apply_store_step
        (rollback_store_step (apply_store_step [] "issue-1" "gpt-4o" "t1" 1) "issue-1" "t3")
        "issue-1" "llama-maverick" "t2" (1/2)) "issue-1" =
      some { model := "llama-maverick", timestamp := "t2", applied := true,
             quality_score := 1/2 } ∧
    storeCountKey (apply_store_step
        (rollback_store_step (apply_store_step [] "issue-1" "gpt-4o" "t1" 1) "issue-1" "t3")
        "issue-1" "llama-maverick" "t2" (1/2)) "issue-1" = 1 :=
  claim_C1_amended [] "issue-1" "gpt-4o" "t1" "llama-maverick" "t2" "t3" 1 (1/2) (by simp)

/-- C3: for every successful remediation attempt (any quality score, any
candidate, with or without a surviving backup), and a file write that does
not itself fail, `apply_remediation` writes the candidate content to the
file exactly when the quality score is at least 0.7 or the caller forces
application; below the threshold without force, nothing is written and the
caller receives the score, the retry-with-another-model suggestion, and the
full candidate as `remediation_preview` — never a silent discard. -/
theorem claim_C3_apply_gate (q : ℚ) (fc : String) (backup : Option String) (force : Bool) :
    ((apply_remediation_model (step5 true true q fc backup) force true).wrote_file = true ↔
      (7/10 ≤ q ∨ force = true)) ∧
    ((apply_remediation_model (step5 true true q fc backup) force true).wrote_file = true →
      (apply_remediation_model (step5 true true q fc backup) force true).written_content =
        some fc) ∧
    (q < 7/10 → force = false →
      (apply_remediation_model (step5 true true q fc backup) force true).wrote_file = false ∧
      (apply_remediation_model (step5 true true q fc backup) force true).result_quality =
        some q ∧
      (apply_remediation_model (step5 true true q fc backup) force true).suggestion =
        some suggestion_text ∧
      (apply_remediation_model (step5 true true q fc backup) force true).preview =
        some (step5 true true q fc backup)) := by
  cases backup with
  | none =>
    by_cases hq : q < 7/10
    · cases force
      · simp [apply_remediation_model, step5, hq, not_le.mpr hq]
      · simp [apply_remediation_model, step5, hq]
    · cases force
      · simp [apply_remediation_model, step5, hq, le_of_not_lt hq]
      · simp [apply_remediation_model, step5, hq, le_of_not_lt hq]
  | some p =>
    by_cases hq : q < 7/10
    · cases force
      · simp [apply_remediation_model, step5, hq, not_le.mpr hq]
      · simp [apply_remediation_model, step5, hq]
    · cases force
      · simp [apply_remediation_model, step5, hq, le_of_not_lt hq]
      · simp [apply_remediation_model, step5, hq, le_of_not_lt hq]

/-- C3 witnessed at quality 0.5 below the threshold without force: no write,
and the score, suggestion and candidate preview come back. -/
theorem claim_C3_witness :
    (apply_remediation_model (step5 true true (1/2) "candidate" (some "bak")) false true).wrote_file
      = false ∧
    (apply_remediation_model (step5 true true (1/2) "candidate" (some "bak")) false true).result_quality
      = some (1/2) ∧
    (apply_remediation_model (step5 true true (1/2) "candidate" (some "bak")) false true).suggestion
      = some suggestion_text ∧
    (apply_remediation_model (step5 true true (1/2) "candidate" (some "bak")) false true).preview
      = some (step5 true true (1/2) "candidate" (some "bak")) :=
  (claim_C3_apply_gate (1/2) "candidate" (some "bak") false).2.2 (by norm_num) rfl

/-- C9: whenever the gateway content yields no loadable JSON (the `loads`
oracle fails on every candidate substring), `_parse_json_response` returns
the zero-issue fallback — `total_issues` 0, an empty `issues` list, and the
(fence-stripped, 500-character-truncated) raw text preserved under
`raw_response` — rather than raising: the function is total and this path
never propagates an exception. -/
theorem claim_C9_parse_fallback (loads : String → Option JVal) (content : String)
    (h : ∀ s, loads s = none) :
    parse_json_response loads content =
      parse_fallback parse_error_text (stripMarkdown content) ∧
    jField (parse_json_response loads content) "total_issues" = some (JVal.jnum 0) ∧
    jField (parse_json_response loads content) "issues" = some (JVal.jarr []) ∧
    jField (parse_json_response loads content) "raw_response" =
      some (JVal.jstr (truncate500 (stripMarkdown content))) := by
  have hmain : parse_json_response loads content =
      parse_fallback parse_error_text (stripMarkdown content) := by
    unfold parse_json_response
    cases hbc : braceCandidate (stripMarkdown content) with
    | none => simp [hbc]
    | some cand => simp [hbc, h]
  refine ⟨hmain, ?_, ?_, ?_⟩ <;> rw [hmain] <;> rfl

/-- C9 witnessed on a plain refusal text with a `loads` that parses
nothing. -/
theorem claim_C9_witness :
    parse_json_response (fun _ => none) "The model refused to answer." =
      parse_fallback parse_error_text
        (stripMarkdown "The model refused to answer.") ∧
    jField (parse_json_response (fun _ => none) "The model refused to answer.")
      "total_issues" = some (JVal.jnum 0) ∧
    jField (parse_json_response (fun _ => none) "The model refused to answer.")
      "issues" = some (JVal.jarr []) ∧
    jField (parse_json_response (fun _ => none) "The model refused to answer.")
      "raw_response" =
      some (JVal.jstr (truncate500 (stripMarkdown "The model refused to answer."))) :=
  claim_C9_parse_fallback (fun _ => none) "The model refused to answer." (fun _ => rfl)

/-- C7: for every claim — and every instantiation of the fuzzy and
taxonomy-pattern matchers — the validator accepts exactly when at least one
resolved line matches under the exact, fuzzy, or taxonomy strategies
(any-match: a single corroborating in-range line suffices, never a
majority), and when no line numbers could be resolved at all it accepts
exactly the principles of the lenient always-plausible set. -/
theorem claim_C7_any_match (fuzzy : String → String → Bool)
    (semantic : Issue → String → Bool) (issue : Issue) (original_code : String) :
    validate_issue_existence fuzzy semantic issue original_code =
      if (resolvedLineNumbers fuzzy issue original_code).isEmpty then
        lenientCheck issue.principle_id
      else
        decide (∃ ln ∈ resolvedLineNumbers fuzzy issue original_code,
          lineStrategyMatch fuzzy semantic issue (splitLines original_code) ln = true) := by
  unfold validate_issue_existence
  by_cases h : (resolvedLineNumbers fuzzy issue original_code).isEmpty
  · simp [h]
  · simp only [Bool.not_eq_true] at h
    simp only [h, Bool.false_eq_true, if_false]
    rw [decide_eq_decide]
    exact List.countP_pos_iff

/-- C7 witnessed: a claim resolved to line 1 whose snippet sits verbatim on
that line is accepted by the exact strategy alone. -/
theorem claim_C7_witness :
    validate_issue_existence noFuzzy noSemantic issueAat1 codeA = true := by
  rw [claim_C7_any_match]
  with_unfolding_all rfl

/-- Taking the first three of a non-empty list is non-empty. -/
theorem take3_ne_nil {l : List Int} (h : l ≠ []) : l.take 3 ≠ [] := by
  cases l with
  | nil => exact absurd rfl h
  | cons a t => simp

/-- C10: for every issue with a (trimmed-)non-empty claimed snippet — and
every instantiation of the fuzzy matcher, taxonomy element search and
keyword extractor — the line-accuracy routine never returns an empty list
(there is no distinct "unresolved" signal), and when no exact, fuzzy or
taxonomy strategy finds a line and no originally claimed line number
survives neighborhood repair it returns exactly `[1]`. -/
theorem claim_C10_fallback_line_one (fuzzy : String → String → Bool)
    (related : Issue → String → List Int) (kws : Issue → List String)
    (issue : Issue) (original_code : String)
    (h : issue.code_snippet.trim ≠ "") :
    improve_line_accuracy fuzzy related kws issue original_code ≠ [] ∧
    (exactMatchLines (splitLines original_code) issue.code_snippet.trim = [] →
      fuzzyMatchLines fuzzy (splitLines original_code) issue.code_snippet.trim = [] →
      related issue original_code = [] →
      neighborhoodLines (kws issue) (splitLines original_code) issue.line_numbers = [] →
      improve_line_accuracy fuzzy related kws issue original_code = [1]) := by
  have hne : ∀ (l : List Int), ¬ l.isEmpty = true → l.take 3 ≠ [] := by
    intro l hl
    apply take3_ne_nil
    simpa [List.isEmpty_iff] using hl
  unfold improve_line_accuracy
  rw [if_neg h]
  constructor
  · by_cases h1 : (exactMatchLines (splitLines original_code) issue.code_snippet.trim).isEmpty
    · rw [if_neg (not_not_intro h1)]
      by_cases h2 :
          (fuzzyMatchLines fuzzy (splitLines original_code) issue.code_snippet.trim).isEmpty
      · rw [if_neg (not_not_intro h2)]
        by_cases h3 : (related issue original_code).isEmpty
        · rw [if_neg (not_not_intro h3)]
          by_cases h4 : (neighborhoodLines (kws issue) (splitLines original_code)
              issue.line_numbers).isEmpty
          · rw [if_neg (not_not_intro h4)]
            simp
          · rw [if_pos h4]
            simpa [List.isEmpty_iff] using h4
        · rw [if_pos h3]
          exact hne _ h3
      · rw [if_pos h2]
        exact hne _ h2
    · rw [if_pos h1]
      exact hne _ h1
  · intro e1 e2 e3 e4
    simp [e1, e2, e3, e4]

/-- C10 witnessed: snippet `zz`, no claimed lines, file `alpha` — every
strategy fails and the routine answers `[1]`. -/
theorem claim_C10_witness :
    improve_line_accuracy noFuzzy noRelated noKeywords issue10 code10 = [1] :=
  (claim_C10_fallback_line_one noFuzzy noRelated noKeywords issue10 code10
    (by with_unfolding_all decide)).2 (by with_unfolding_all rfl)
    (by with_unfolding_all rfl) rfl (by with_unfolding_all rfl)

/-- C8 amended: whenever the trimmed claimed snippet is non-empty and occurs
verbatim somewhere, the Locator answers with exactly the first at most
three lines containing it — the exact substring strategy runs first and its
result is independent of the fuzzy and taxonomy strategies. -/
theorem claim_C8_amended (fuzzy : String → String → Bool)
    (related : Issue → String → List Int) (kws : Issue → List String)
    (issue : Issue) (original_code : String)
    (h : issue.code_snippet.trim ≠ "")
    (hx : exactMatchLines (splitLines original_code) issue.code_snippet.trim ≠ []) :
    improve_line_accuracy fuzzy related kws issue original_code =
      (exactMatchLines (splitLines original_code) issue.code_snippet.trim).take 3 := by
  have hx' : ¬ (exactMatchLines (splitLines original_code) issue.code_snippet.trim).isEmpty
      = true := by
    simpa [List.isEmpty_iff] using hx
  unfold improve_line_accuracy
  rw [if_neg h, if_pos hx']

/-- C8 amended, witnessed on Scenario A: source line `margin: 10px;`,
claimed snippet `margin: 10px`, no claimed line numbers — resolved to line
1 by the exact substring strategy. -/
theorem claim_C8_witness :
    improve_line_accuracy noFuzzy noRelated noKeywords issueA codeA =
      (exactMatchLines (splitLines codeA) issueA.code_snippet.trim).take 3 :=
  claim_C8_amended noFuzzy noRelated noKeywords issueA codeA
    (by with_unfolding_all decide) (by with_unfolding_all decide)

/-- The fraction of in-range claimed lines is non-negative. -/
theorem lineFraction_nonneg (lns : List Int) (n : Nat) : 0 ≤ lineFraction lns n := by
  unfold lineFraction
  split_ifs
  · exact le_refl 0
  · positivity

/-- The fraction of in-range claimed lines is at most one. -/
theorem lineFraction_le_one (lns : List Int) (n : Nat) : lineFraction lns n ≤ 1 := by
  unfold lineFraction
  split_ifs with h
  · norm_num
  · have hne : lns ≠ [] := by simpa [List.isEmpty_iff] using h
    have hlen : 0 < (lns.length : ℚ) := by
      exact_mod_cast List.length_pos.mpr hne
    rw [div_le_one hlen]
    exact_mod_cast List.countP_le_length _

/-- Pulling an added weight out of a conditional (then-branch form). -/
theorem ite_add_weight (c : Prop) [Decidable c] (s w : ℚ) :
    (if c then s + w else s) = s + (if c then w else 0) := by
  split_ifs <;> ring

/-- Pulling an added weight out of a conditional (else-branch form). -/
theorem ite_add_weight_else (c : Prop) [Decidable c] (s w : ℚ) :
    (if c then s else s + w) = s + (if c then 0 else w) := by
  split_ifs <;> ring

/-- Collapsing a nested conditional weight into a conjunction. -/
theorem ite_ite_zero (a b : Prop) [Decidable a] [Decidable b] (w : ℚ) :
    (if a then (if b then w else 0) else 0) = if a ∧ b then w else 0 := by
  by_cases ha : a <;> by_cases hb : b <;> simp [ha, hb]

/-- The guarded `any` of the snippet term coincides with the spec's
"appears verbatim on at least one resolved line". -/
theorem snippet_cond_iff (issue : Issue) (original_code : String) :
    ((issue.code_snippet ≠ "" ∧ ¬ issue.line_numbers.isEmpty = true) ∧
      (issue.line_numbers.any (fun ln =>
        lineInRange (splitLines original_code).length ln &&
        pyContains (lineGetD (splitLines original_code) ln) issue.code_snippet.trim)) = true) ↔
    (issue.code_snippet ≠ "" ∧
      ∃ ln ∈ issue.line_numbers,
        lineInRange (splitLines original_code).length ln = true ∧
        pyContains (lineGetD (splitLines original_code) ln) issue.code_snippet.trim = true) := by
  constructor
  · rintro ⟨⟨hs, _⟩, hany⟩
    refine ⟨hs, ?_⟩
    simpa [List.any_eq_true, Bool.and_eq_true] using hany
  · rintro ⟨hs, ln, hmem, h1, h2⟩
    refine ⟨⟨hs, ?_⟩, ?_⟩
    · intro hE
      rw [List.isEmpty_iff] at hE
      simp [hE] at hmem
    · simp only [List.any_eq_true, Bool.and_eq_true]
      exact ⟨ln, hmem, h1, h2⟩

/-- The validation score computed by the source equals the clamped weighted
sum of the four spec components. -/
theorem validation_score_min_form (issue : Issue) (original_code : String) :
    calculate_validation_score issue original_code =
      min (4/10 * lineFraction issue.line_numbers (splitLines original_code).length +
           3/10 * snippetIndicator issue original_code +
           2/10 * principleIndicator issue +
           1/10 * descriptionIndicator issue) 1 := by
  unfold calculate_validation_score lineFraction snippetIndicator principleIndicator
    descriptionIndicator
  simp only [ite_add_weight, ite_add_weight_else, ite_ite_zero, mul_ite, mul_one, mul_zero]
  congr 1
  rw [if_congr (snippet_cond_iff issue original_code) rfl rfl]
  ring

/-- C5: for every issue (empty claims included) the validation score of
`_calculate_validation_score` equals 0.4 times the fraction of claimed line
numbers in range, plus 0.3 when the claimed snippet appears verbatim on at
least one resolved line, plus 0.2 when the principle id is a known taxonomy
key, plus 0.1 when the description is longer than 20 characters and
contains a domain keyword — and it always lies within [0, 1]. -/
theorem claim_C5_validation_score (issue : Issue) (original_code : String) :
    calculate_validation_score issue original_code =
      4/10 * lineFraction issue.line_numbers (splitLines original_code).length +
      3/10 * snippetIndicator issue original_code +
      2/10 * principleIndicator issue +
      1/10 * descriptionIndicator issue ∧
    0 ≤ calculate_validation_score issue original_code ∧
    calculate_validation_score issue original_code ≤ 1 := by
  have hform := validation_score_min_form issue original_code
  have hF0 := lineFraction_nonneg issue.line_numbers (splitLines original_code).length
  have hF1 := lineFraction_le_one issue.line_numbers (splitLines original_code).length
  have hS : 0 ≤ snippetIndicator issue original_code ∧
      snippetIndicator issue original_code ≤ 1 := by
    unfold snippetIndicator
    split_ifs <;> norm_num
  have hPb : 0 ≤ principleIndicator issue ∧ principleIndicator issue ≤ 1 := by
    unfold principleIndicator
    split_ifs <;> norm_num
  have hDb : 0 ≤ descriptionIndicator issue ∧ descriptionIndicator issue ≤ 1 := by
    unfold descriptionIndicator
    split_ifs <;> norm_num
  have hsum0 : 0 ≤ 4/10 * lineFraction issue.line_numbers (splitLines original_code).length +
      3/10 * snippetIndicator issue original_code +
      2/10 * principleIndicator issue +
      1/10 * descriptionIndicator issue := by
    have := hS.1
    have := hPb.1
    have := hDb.1
    nlinarith
  have hsum1 : 4/10 * lineFraction issue.line_numbers (splitLines original_code).length +
      3/10 * snippetIndicator issue original_code +
      2/10 * principleIndicator issue +
      1/10 * descriptionIndicator issue ≤ 1 := by
    have := hS.2
    have := hPb.2
    have := hDb.2
    nlinarith
  refine ⟨?_, ?_, ?_⟩
  · rw [hform, min_eq_left hsum1]
  · rw [hform]
    exact le_min hsum0 (by norm_num)
  · rw [hform]
    exact min_le_right _ _

end AestheticEvaluator
